import Mathlib

/-!
# Verification of the drm_hwcomposer display compositor backend

Shallow embedding of the HWC2 entry points (`src/hwc2_device/hwc2_device.cpp`),
the DRM device layer (`DrmDevice.cpp`), and the DRM property wrapper
(`DrmProperty.cpp`), together with theorems checking the natural-language
specification against them.

Machine integers are modelled as `Nat`/`Int`; values the code merely stores and
never computes with (float plane alpha, float source-crop coordinates, opaque
buffer handles) are modelled as raw bit patterns (`Nat`).  External kernel and
libdrm calls are modelled by explicit environments recording each call's
outcome, so every function of the embedding is a pure, executable function of
its environment.
-/

/- ### Shared color/blend types (compositor/ColorInfo.h and BufferInfo) -/

inductive BufferBlendMode
  | kUndefined
  | kNone
  | kPreMult
  | kCoverage
deriving DecidableEq

inductive BufferColorSpace
  | kUndefined
  | kItuRec601
  | kItuRec709
  | kItuRec2020
deriving DecidableEq

inductive BufferSampleRange
  | kUndefined
  | kFullRange
  | kLimitedRange
deriving DecidableEq

/-- Raw 32-bit float bit pattern; the HWC2 entry points store these values
verbatim and never do arithmetic on them. -/
abbrev FloatBits := Nat

namespace Hwc2

/- ### HWC2 ABI constants (hardware/hwcomposer2.h) -/

/-- Embeds `HWC2::Error::BadDisplay` cast to int32. -/
def errorBadDisplay : Int := 2

/-- Embeds `HWC2::Error::BadLayer` cast to int32. -/
def errorBadLayer : Int := 3

/-- Embeds `HWC2::BlendMode::None` underlying value. -/
def blendModeNone : Int := 1

/-- Embeds `HWC2::BlendMode::Premultiplied` underlying value. -/
def blendModePremultiplied : Int := 2

/-- Embeds `HWC2::BlendMode::Coverage` underlying value. -/
def blendModeCoverage : Int := 3

def HAL_TRANSFORM_FLIP_H : Nat := 1
def HAL_TRANSFORM_FLIP_V : Nat := 2
def HAL_TRANSFORM_ROT_90 : Nat := 4

def HAL_DATASPACE_STANDARD_MASK : Nat := 63 <<< 16
def HAL_DATASPACE_STANDARD_BT709 : Nat := 1 <<< 16
def HAL_DATASPACE_STANDARD_BT601_625 : Nat := 2 <<< 16
def HAL_DATASPACE_STANDARD_BT601_625_UNADJUSTED : Nat := 3 <<< 16
def HAL_DATASPACE_STANDARD_BT601_525 : Nat := 4 <<< 16
def HAL_DATASPACE_STANDARD_BT601_525_UNADJUSTED : Nat := 5 <<< 16
def HAL_DATASPACE_STANDARD_BT2020 : Nat := 6 <<< 16
def HAL_DATASPACE_STANDARD_BT2020_CONSTANT_LUMINANCE : Nat := 7 <<< 16
def HAL_DATASPACE_RANGE_MASK : Nat := 7 <<< 27
def HAL_DATASPACE_RANGE_FULL : Nat := 1 <<< 27
def HAL_DATASPACE_RANGE_LIMITED : Nat := 2 <<< 27

/- ### Layer state (HwcLayer staged properties) -/

/-- Embeds `LayerTransform` as built by `SetLayerTransform`. -/
structure LayerTransform where
  hflip : Bool
  vflip : Bool
  rotate90 : Bool
deriving DecidableEq

/-- Integer destination rectangle (`DstRectInfo::IRect`). -/
structure IRect where
  left : Int
  top : Int
  right : Int
  bottom : Int
deriving DecidableEq

/-- Float source-crop rectangle (`SrcRectInfo::FRect`), coordinates kept as raw
float bit patterns. -/
structure FRect where
  left : FloatBits
  top : FloatBits
  right : FloatBits
  bottom : FloatBits
deriving DecidableEq

/-- The staged (buffered-write) state of one `HwcLayer`. -/
structure HwcLayer where
  blend_mode : BufferBlendMode
  buffer_handle : Nat
  acquire_fence : Int
  color_space : BufferColorSpace
  sample_range : BufferSampleRange
  composition_type : Int
  display_frame : IRect
  alpha : FloatBits
  source_crop : FRect
  transform : LayerTransform
  z_order : Nat
deriving DecidableEq

/-- Embeds `HwcLayer::LayerProperties`: one optional staged value per settable layer
property; an absent field leaves the staged state untouched. -/
structure LayerProperties where
  blend_mode : Option BufferBlendMode := none
  buffer : Option (Nat × Int) := none
  color_space : Option BufferColorSpace := none
  sample_range : Option BufferSampleRange := none
  composition_type : Option Int := none
  display_frame : Option IRect := none
  alpha : Option FloatBits := none
  source_crop : Option FRect := none
  transform : Option LayerTransform := none
  z_order : Option Nat := none

/-- Modelled from the spec: `HwcLayer::SetLayerProperties` is not under `src/`
(only its call sites are).  Per §3 "Layer": properties are "mutated
field-by-field via property-set calls accumulated until the next validate pass
(buffered-write semantics: writes are staged)".  Each field present in the
`LayerProperties` argument overwrites the corresponding staged field. -/
def SetLayerProperties (l : HwcLayer) (p : LayerProperties) : HwcLayer :=
  { blend_mode := p.blend_mode.getD l.blend_mode
    buffer_handle := (p.buffer.map Prod.fst).getD l.buffer_handle
    acquire_fence := (p.buffer.map Prod.snd).getD l.acquire_fence
    color_space := p.color_space.getD l.color_space
    sample_range := p.sample_range.getD l.sample_range
    composition_type := p.composition_type.getD l.composition_type
    display_frame := p.display_frame.getD l.display_frame
    alpha := p.alpha.getD l.alpha
    source_crop := p.source_crop.getD l.source_crop
    transform := p.transform.getD l.transform
    z_order := p.z_order.getD l.z_order }

/-- One display: its layers, keyed by layer handle (`HwcDisplay::get_layer`). -/
structure HwcDisplay where
  layers : List (Nat × HwcLayer)
deriving DecidableEq

/-- The composer device: its displays, keyed by display handle
(`DrmHwcTwo::GetDisplay`). -/
structure DrmHwcTwo where
  displays : List (Nat × HwcDisplay)
deriving DecidableEq

/-- Association-list lookup (handle-to-object resolution). -/
def lookupA {α : Type} : List (Nat × α) → Nat → Option α
  | [], _ => none
  | (k, v) :: rest, h => if k = h then some v else lookupA rest h

/-- Association-list in-place update of an existing key. -/
def updateA {α : Type} : List (Nat × α) → Nat → α → List (Nat × α)
  | [], _, _ => []
  | (k, v) :: rest, h, nv =>
    if k = h then (k, nv) :: rest else (k, v) :: updateA rest h nv

/-- Common structure of the layer-property entry points: the `LOCK_COMPOSER` /
`GET_DISPLAY` / `GET_LAYER` macro sequence followed by
`ilayer->SetLayerProperties(...)` and `return 0`.  An unresolved display
handle returns `BadDisplay`, an unresolved layer handle returns `BadLayer`,
and in both cases the device state is returned unchanged. -/
def layerHook (dev : DrmHwcTwo) (display layer : Nat)
    (props : HwcLayer → LayerProperties) : Int × DrmHwcTwo :=
  match lookupA dev.displays display with
  | none => (errorBadDisplay, dev)
  | some idisplay =>
    match lookupA idisplay.layers layer with
    | none => (errorBadLayer, dev)
    | some ilayer =>
      (0, { displays :=
              updateA dev.displays display
                { layers := updateA idisplay.layers layer
                    (SetLayerProperties ilayer (props ilayer)) } })

/-- Embeds `SetLayerBlendMode` (hwc2_device.cpp:143). -/
def SetLayerBlendMode (dev : DrmHwcTwo) (display layer : Nat) (mode : Int) :
    Int × DrmHwcTwo :=
  layerHook dev display layer (fun _ =>
    let blend_mode :=
      if mode = blendModeNone then BufferBlendMode.kNone
      else if mode = blendModePremultiplied then BufferBlendMode.kPreMult
      else if mode = blendModeCoverage then BufferBlendMode.kCoverage
      else BufferBlendMode.kUndefined
    { blend_mode := some blend_mode })

/-- Embeds `SetLayerBuffer` (hwc2_device.cpp:176). -/
def SetLayerBuffer (dev : DrmHwcTwo) (display layer : Nat)
    (buffer : Nat) (acquire_fence : Int) : Int × DrmHwcTwo :=
  layerHook dev display layer (fun _ =>
    { buffer := some (buffer, acquire_fence) })

/-- Embeds `Hwc2ToColorSpace` (hwc2_device.cpp:115). -/
def Hwc2ToColorSpace (dataspace : Nat) : BufferColorSpace :=
  let std := dataspace &&& HAL_DATASPACE_STANDARD_MASK
  if std = HAL_DATASPACE_STANDARD_BT709 then BufferColorSpace.kItuRec709
  else if std = HAL_DATASPACE_STANDARD_BT601_625 then BufferColorSpace.kItuRec601
  else if std = HAL_DATASPACE_STANDARD_BT601_625_UNADJUSTED then BufferColorSpace.kItuRec601
  else if std = HAL_DATASPACE_STANDARD_BT601_525 then BufferColorSpace.kItuRec601
  else if std = HAL_DATASPACE_STANDARD_BT601_525_UNADJUSTED then BufferColorSpace.kItuRec601
  else if std = HAL_DATASPACE_STANDARD_BT2020 then BufferColorSpace.kItuRec2020
  else if std = HAL_DATASPACE_STANDARD_BT2020_CONSTANT_LUMINANCE then BufferColorSpace.kItuRec2020
  else BufferColorSpace.kUndefined

/-- Embeds `Hwc2ToSampleRange` (hwc2_device.cpp:132). -/
def Hwc2ToSampleRange (dataspace : Nat) : BufferSampleRange :=
  let range := dataspace &&& HAL_DATASPACE_RANGE_MASK
  if range = HAL_DATASPACE_RANGE_FULL then BufferSampleRange.kFullRange
  else if range = HAL_DATASPACE_RANGE_LIMITED then BufferSampleRange.kLimitedRange
  else BufferSampleRange.kUndefined

/-- Embeds `SetLayerDataspace` (hwc2_device.cpp:192). -/
def SetLayerDataspace (dev : DrmHwcTwo) (display layer : Nat)
    (dataspace : Nat) : Int × DrmHwcTwo :=
  layerHook dev display layer (fun _ =>
    { color_space := some (Hwc2ToColorSpace dataspace)
      sample_range := some (Hwc2ToSampleRange dataspace) })

/-- Embeds `SetLayerCompositionType` (hwc2_device.cpp:222). -/
def SetLayerCompositionType (dev : DrmHwcTwo) (display layer : Nat)
    (type : Int) : Int × DrmHwcTwo :=
  layerHook dev display layer (fun _ => { composition_type := some type })

/-- Embeds `SetLayerDisplayFrame` (hwc2_device.cpp:238). -/
def SetLayerDisplayFrame (dev : DrmHwcTwo) (display layer : Nat)
    (frame : IRect) : Int × DrmHwcTwo :=
  layerHook dev display layer (fun _ => { display_frame := some frame })

/-- Embeds `SetLayerPlaneAlpha` (hwc2_device.cpp:257). -/
def SetLayerPlaneAlpha (dev : DrmHwcTwo) (display layer : Nat)
    (alpha : FloatBits) : Int × DrmHwcTwo :=
  layerHook dev display layer (fun _ => { alpha := some alpha })

/-- Embeds `SetLayerSourceCrop` (hwc2_device.cpp:279). -/
def SetLayerSourceCrop (dev : DrmHwcTwo) (display layer : Nat)
    (crop : FRect) : Int × DrmHwcTwo :=
  layerHook dev display layer (fun _ => { source_crop := some crop })

/-- Embeds `SetLayerTransform` (hwc2_device.cpp:305). -/
def SetLayerTransform (dev : DrmHwcTwo) (display layer : Nat)
    (transform : Nat) : Int × DrmHwcTwo :=
  layerHook dev display layer (fun _ =>
    { transform := some
        { hflip := transform &&& HAL_TRANSFORM_FLIP_H != 0
          vflip := transform &&& HAL_TRANSFORM_FLIP_V != 0
          rotate90 := transform &&& HAL_TRANSFORM_ROT_90 != 0 } })

/-- Embeds `SetLayerZOrder` (hwc2_device.cpp:331). -/
def SetLayerZOrder (dev : DrmHwcTwo) (display layer : Nat)
    (z : Nat) : Int × DrmHwcTwo :=
  layerHook dev display layer (fun _ => { z_order := some z })

end Hwc2

namespace DrmDev

/- ### DrmDevice (DrmDevice.cpp) -/

/-- errno values used by DrmDevice. -/
def ENOENT : Int := 2
def EACCES : Int := 13
def EINVAL : Int := 22
def ENODEV : Int := 19

/-- Embeds `DRM_FORMAT_XRGB8888` fourcc. -/
def DRM_FORMAT_XRGB8888 : Nat := 0x34325258

/-- Embeds `DRM_FORMAT_MOD_NONE`. -/
def DRM_FORMAT_MOD_NONE : Nat := 0

/-- The fields of `drmModeRes` that `Init`/`IsKMSDev` consult. -/
structure KmsRes where
  count_crtcs : Int
  count_connectors : Int
  count_encoders : Int
  min_width : Nat
  min_height : Nat
  max_width : Nat
  max_height : Nat
deriving DecidableEq

/-- Environment recording the outcome of every kernel/libdrm call a
`DrmDevice::Init` / `CreateInstance` run makes on one device node. -/
structure DrmEnv where
  /-- Embeds `open(path, O_RDWR | O_CLOEXEC)` succeeds. -/
  openOk : Bool
  /-- return of `drmSetClientCap(fd, DRM_CLIENT_CAP_UNIVERSAL_PLANES, 1)`. -/
  universalPlanesRet : Int
  /-- return of `drmSetClientCap(fd, DRM_CLIENT_CAP_ATOMIC, 1)`. -/
  atomicRet : Int
  /-- return of `drmSetClientCap(fd, DRM_CLIENT_CAP_WRITEBACK_CONNECTORS, 1)`. -/
  writebackRet : Int
  /-- Embeds `drmGetCap(fd, DRM_CAP_ADDFB2_MODIFIERS, &v)` succeeds. -/
  modifiersCapOk : Bool
  /-- the value the modifiers capability query stores. -/
  modifiersCapValue : Nat
  /-- Embeds `drmIsMaster(fd)` is nonzero after `drmSetMaster`. -/
  isMaster : Bool
  /-- Embeds `drmModeGetResources(fd)` result (`none` = failure). -/
  res : Option KmsRes
  /-- Embeds `drmModeGetPlaneResources(fd)` succeeds. -/
  planeResOk : Bool
deriving DecidableEq

/-- The DrmDevice fields `Init` establishes that the claims consult. -/
structure DrmDeviceState where
  HasAddFb2ModifiersSupport : Bool
  min_resolution : Nat × Nat
  max_resolution : Nat × Nat
deriving DecidableEq

/-- Embeds `DrmDevice::Init` (DrmDevice.cpp:58): open the node, negotiate client
capabilities, acquire master, fetch resources.  The crtc/encoder/connector/
plane enumeration loops skip objects whose `CreateInstance` fails and never
change the return value, so they do not appear in the model. -/
def DrmDevice_Init (e : DrmEnv) : Except Int DrmDeviceState :=
  if ¬ e.openOk then Except.error (-ENODEV)
  else if e.universalPlanesRet ≠ 0 then Except.error e.universalPlanesRet
  else if e.atomicRet ≠ 0 then Except.error e.atomicRet
  else
    -- a writeback-connectors cap failure is only logged (ALOGI), not returned
    let cap_value := if e.modifiersCapOk then e.modifiersCapValue else 0
    let hasAddFb2Modifiers := cap_value != 0
    if ¬ e.isMaster then Except.error (-EACCES)
    else
      match e.res with
      | none => Except.error (-ENODEV)
      | some r =>
        if ¬ e.planeResOk then Except.error (-ENOENT)
        else Except.ok
          { HasAddFb2ModifiersSupport := hasAddFb2Modifiers
            min_resolution := (r.min_width, r.min_height)
            max_resolution := (r.max_width, r.max_height) }

/-- Embeds `DrmDevice::IsKMSDev` (DrmDevice.cpp:233): the node opens, its mode
resources can be fetched, and it has at least one CRTC, connector and
encoder. -/
def IsKMSDev (e : DrmEnv) : Bool :=
  if ¬ e.openOk then false
  else
    match e.res with
    | none => false
    | some r =>
      decide (r.count_crtcs > 0) && decide (r.count_connectors > 0) &&
        decide (r.count_encoders > 0)

/-- Embeds `DrmDevice::CreateInstance` (DrmDevice.cpp:37): fails (empty pointer)
unless `IsKMSDev` holds and `Init` returns 0. -/
def CreateInstance (e : DrmEnv) : Option DrmDeviceState :=
  if ¬ IsKMSDev e then none
  else
    match DrmDevice_Init e with
    | Except.error _ => none
    | Except.ok s => some s

/- ### DrmDevice::GetProperty -/

/-- Environment for `GetProperty`: what `drmModeObjectGetProperties` returns
for each (object id, object type) pair — `none` when the call fails, otherwise
the names of the object's properties in order. -/
structure PropFetchEnv where
  objectProps : Nat → Nat → Option (List String)

/-- Embeds `DrmDevice::GetProperty` (DrmDevice.cpp:195): `-ENODEV` when the property
fetch fails, else scan for the first property with the requested name: `0`
when found, `-ENOENT` when not. -/
def GetProperty (env : PropFetchEnv) (obj_id obj_type : Nat)
    (prop_name : String) : Int :=
  match env.objectProps obj_id obj_type with
  | none => -ENODEV
  | some names => if names.contains prop_name then 0 else -ENOENT

/-- A property with the given name exists on the object: the properties fetch
succeeds and lists that name. -/
def propExistsOn (env : PropFetchEnv) (obj_id obj_type : Nat)
    (prop_name : String) : Prop :=
  ∃ names, env.objectProps obj_id obj_type = some names ∧
    names.contains prop_name = true

/- ### Resource lifecycle (CreateBufferForModeset, RegisterUserPropertyBlob) -/

/-- Kernel resource acquisition/release events issued through `drmIoctl`. -/
inductive DrmIoctlEvent
  | createDumb
  | destroyDumb (handle : Nat)
  | createBlob
  | destroyBlob (blob_id : Nat)
deriving DecidableEq

/-- Environment for one `CreateBufferForModeset` run. -/
structure ModesetEnv where
  /-- return of `DRM_IOCTL_MODE_CREATE_DUMB`. -/
  createDumbRet : Int
  /-- Embeds `create.handle` filled in by the kernel on success. -/
  createdHandle : Nat
  /-- Embeds `create.pitch` filled in by the kernel on success. -/
  createdPitch : Nat
  /-- return of `DRM_IOCTL_MODE_MAP_DUMB`. -/
  mapDumbRet : Int
  /-- Embeds `mmap` returns something other than `MAP_FAILED`. -/
  mmapOk : Bool
  /-- return of `drmPrimeHandleToFD`. -/
  primeRet : Int
  /-- the prime FD produced on success. -/
  primeFd : Int
deriving DecidableEq

/-- The `BufferInfo` fields `CreateBufferForModeset` fills in. -/
structure BufferInfo where
  width : Nat
  height : Nat
  format : Nat
  pitch0 : Nat
  primeFd0 : Int
  modifier0 : Nat
  color_space : BufferColorSpace
  sample_range : BufferSampleRange
  blend_mode : BufferBlendMode
deriving DecidableEq

/-- Embeds `DrmDevice::CreateBufferForModeset` (DrmDevice.cpp:279): create a dumb
buffer, map it, clear it, export it as a prime FD; on every exit after a
successful create (the `done:` label), destroy the dumb handle.  Returns the
resulting buffer (if any) together with the create/destroy ioctl trace. -/
def CreateBufferForModeset (e : ModesetEnv) (width height : Nat) :
    Option BufferInfo × List DrmIoctlEvent :=
  if e.createDumbRet ≠ 0 then (none, [DrmIoctlEvent.createDumb])
  else
    let doneEvents : List DrmIoctlEvent :=
      if e.createdHandle > 0 then [DrmIoctlEvent.destroyDumb e.createdHandle]
      else []
    let trace := DrmIoctlEvent.createDumb :: doneEvents
    if e.mapDumbRet ≠ 0 then (none, trace)
    else if ¬ e.mmapOk then (none, trace)
    else if e.primeRet ≠ 0 then (none, trace)
    else
      (some
        { width := width
          height := height
          format := DRM_FORMAT_XRGB8888
          pitch0 := e.createdPitch
          primeFd0 := e.primeFd
          modifier0 := DRM_FORMAT_MOD_NONE
          color_space := BufferColorSpace.kUndefined
          sample_range := BufferSampleRange.kUndefined
          blend_mode := BufferBlendMode.kNone },
        trace)

/-- Environment for one `RegisterUserPropertyBlob` call. -/
structure BlobEnv where
  /-- return of `DRM_IOCTL_MODE_CREATEPROPBLOB`. -/
  createBlobRet : Int
  /-- Embeds `create_blob.blob_id` filled in by the kernel on success. -/
  blobId : Nat
deriving DecidableEq

/-- Embeds `DrmDevice::RegisterUserPropertyBlob` (DrmDevice.cpp:167): create the
blob; on failure return an empty handle, on success hand the blob id to a
unique owning handle. -/
def RegisterUserPropertyBlob (e : BlobEnv) :
    Option Nat × List DrmIoctlEvent :=
  if e.createBlobRet ≠ 0 then (none, [DrmIoctlEvent.createBlob])
  else (some e.blobId, [DrmIoctlEvent.createBlob])

/-- The deleter of `DrmModeUserPropertyBlobUnique` (DrmDevice.cpp:181),
invoked exactly once when the owning handle is released: issue
`DRM_IOCTL_MODE_DESTROYPROPBLOB` for the stored blob id. -/
def ReleaseUserPropertyBlob (blob_id : Nat) : List DrmIoctlEvent :=
  [DrmIoctlEvent.destroyBlob blob_id]

end DrmDev

namespace DrmProp

/- ### DrmProperty (DrmProperty.cpp) -/

/-- Embeds `DrmPropertyType` as set by `DrmProperty::Init` from the kernel flags;
`INVALID` is the default when no known flag bit is present. -/
inductive DrmPropertyType
  | INT
  | ENUM
  | OBJECT
  | BLOB
  | BITMASK
  | INVALID
deriving DecidableEq

/-- Embeds `DRM_MODE_PROP_*` flag bits (drm_mode.h). -/
def DRM_MODE_PROP_RANGE : Nat := 2
def DRM_MODE_PROP_ENUM : Nat := 8
def DRM_MODE_PROP_BLOB : Nat := 16
def DRM_MODE_PROP_BITMASK : Nat := 32
def DRM_MODE_PROP_OBJECT : Nat := 1 <<< 6
def DRM_MODE_PROP_IMMUTABLE : Nat := 4

/-- The flag-to-type derivation at the end of `DrmProperty::Init`
(DrmProperty.cpp:58-67); falls through to the pre-Init default when no
recognized flag bit is set. -/
def typeFromFlags (flags : Nat) : DrmPropertyType :=
  if flags &&& DRM_MODE_PROP_RANGE ≠ 0 then DrmPropertyType.INT
  else if flags &&& DRM_MODE_PROP_ENUM ≠ 0 then DrmPropertyType.ENUM
  else if flags &&& DRM_MODE_PROP_OBJECT ≠ 0 then DrmPropertyType.OBJECT
  else if flags &&& DRM_MODE_PROP_BLOB ≠ 0 then DrmPropertyType.BLOB
  else if flags &&& DRM_MODE_PROP_BITMASK ≠ 0 then DrmPropertyType.BITMASK
  else DrmPropertyType.INVALID

/-- The state of one `DrmProperty` after `Init`: ids, type, the `values_`
vector, the values of the `enums_` entries, and the raw property value. -/
structure DrmProperty where
  obj_id : Nat
  id : Nat
  type : DrmPropertyType
  values : List Nat
  enums : List Nat
  value : Nat
deriving DecidableEq

/-- Embeds `DrmProperty::value` (DrmProperty.cpp:78): blob properties return the raw
value; any other property with an empty `values_` vector is `-ENOENT`;
int/object return the raw value; an enum with an in-range raw value selects
the enum entry's value and is otherwise `-ENOENT`; bitmask and unrecognized
types are `-EINVAL`. -/
def DrmProperty_value (p : DrmProperty) : Int × Nat :=
  if p.type = DrmPropertyType.BLOB then (0, p.value)
  else if p.values = [] then (-DrmDev.ENOENT, 0)
  else
    match p.type with
    | DrmPropertyType.INT => (0, p.value)
    | DrmPropertyType.ENUM =>
      if p.enums.length ≤ p.value then (-DrmDev.ENOENT, 0)
      else (0, p.enums.getD p.value 0)
    | DrmPropertyType.OBJECT => (0, p.value)
    | _ => (-DrmDev.EINVAL, 0)

/-- Environment for one `drmModeAtomicAddProperty` call: whether libdrm
reports success (return ≥ 0). -/
structure AtomicAddEnv where
  addOk : Bool
deriving DecidableEq

/-- Embeds `DrmProperty::AtomicSet` (DrmProperty.cpp:141): a non-initialized property
(id 0) fails without touching the request; otherwise append the
(object-id, property-id, value) triple, failing if libdrm rejects it. -/
def DrmProperty_AtomicSet (p : DrmProperty) (e : AtomicAddEnv)
    (pset : List (Nat × Nat × Nat)) (value : Nat) :
    Bool × List (Nat × Nat × Nat) :=
  if p.id = 0 then (false, pset)
  else if e.addOk then (true, pset ++ [(p.obj_id, p.id, value)])
  else (false, pset)

end DrmProp

namespace Planner

/- ### Composition planner (spec §4.2; code not under src/) -/

inductive PlaneType
  | primary
  | overlay
  | cursor
deriving DecidableEq

/-- Modelled from the spec: the `HardwarePlane` of §3 — the planner's code is
not under `src/`.  Stable identifier, plane type, supported formats, declared
max cursor size, and the per-pass "currently assigned" flag. -/
structure HardwarePlane where
  plane_id : Nat
  ptype : PlaneType
  formats : List Nat
  maxCursorW : Nat
  maxCursorH : Nat
  in_use : Bool
deriving DecidableEq

inductive CompHint
  | device
  | client
  | cursorHint
  | solidColor
  | invalid
deriving DecidableEq

/-- Modelled from the spec: the planner-relevant attributes of a `Layer`
(§3): creation-order id, z-order, format, size, composition-type hint. -/
structure PLayer where
  layer_id : Nat
  z : Nat
  format : Nat
  width : Nat
  height : Nat
  hint : CompHint
deriving DecidableEq

/-- Modelled from the spec: §3 `HardwarePlane` — "its 'currently assigned'
flag resets every planning pass". -/
def resetFlags (ps : List HardwarePlane) : List HardwarePlane :=
  ps.map (fun p => { p with in_use := false })

/-- Sort key of spec §4.2 step 1: descending z-order, ties broken by
ascending creation order. -/
def layerBefore (a b : PLayer) : Bool :=
  decide (b.z < a.z) || (decide (a.z = b.z) && decide (a.layer_id ≤ b.layer_id))

def insertSorted (l : PLayer) : List PLayer → List PLayer
  | [] => [l]
  | x :: xs => if layerBefore l x then l :: x :: xs else x :: insertSorted l xs

/-- Modelled from the spec: §4.2 step 1 — "Sort layers by descending z-order
(... ties broken by layer creation order ...)". -/
def sortLayers : List PLayer → List PLayer
  | [] => []
  | l :: ls => insertSorted l (sortLayers ls)

/-- Modelled from the spec: §4.2 steps 2-3 — a cursor-hinted layer no larger
than the cursor plane's declared max size takes the (unassigned) cursor
plane; every other layer greedily takes the next unassigned non-cursor plane
whose capability set covers the layer's format. -/
def pick (ps : List HardwarePlane) (l : PLayer) : Option Nat :=
  if l.hint = CompHint.cursorHint then
    (ps.find? (fun p =>
      !p.in_use && decide (p.ptype = PlaneType.cursor) &&
        decide (l.width ≤ p.maxCursorW) &&
        decide (l.height ≤ p.maxCursorH))).map (fun p => p.plane_id)
  else
    (ps.find? (fun p =>
      !p.in_use && decide (p.ptype ≠ PlaneType.cursor) &&
        p.formats.contains l.format)).map (fun p => p.plane_id)

/-- Mark the plane with the given id as assigned for this pass. -/
def markUsed (ps : List HardwarePlane) (pid : Nat) : List HardwarePlane :=
  ps.map (fun p => if p.plane_id = pid then { p with in_use := true } else p)

/-- Modelled from the spec: §4.2 steps 2-4 — process the sorted layers in
order, greedily binding each to a plane (`none` = "marked for client
composition", §4.2 step 4); returns the assignment and the registry with
its per-pass assignment flags. -/
def assignLayers (ps : List HardwarePlane) :
    List PLayer → List (Nat × Option Nat) × List HardwarePlane
  | [] => ([], ps)
  | l :: rest =>
    match pick ps l with
    | some pid =>
      let r := assignLayers (markUsed ps pid) rest
      ((l.layer_id, some pid) :: r.fst, r.snd)
    | none =>
      let r := assignLayers ps rest
      ((l.layer_id, none) :: r.fst, r.snd)

/-- Modelled from the spec: §4.2 `Plan(orderedLayers, availablePlanes) ->
CompositionPlan` — reset every plane's per-pass flag, sort the layers
(step 1), then greedily assign (steps 2-4).  The planner's source is not
under `src/`. -/
def Plan (ls : List PLayer) (registry : List HardwarePlane) :
    List (Nat × Option Nat) × List HardwarePlane :=
  assignLayers (resetFlags registry) (sortLayers ls)

end Planner

/- ### Concrete sample states used to evaluate the theorems -/

namespace Hwc2

/-- A concrete staged layer state. -/
def sampleLayer : HwcLayer :=
  { blend_mode := BufferBlendMode.kUndefined
    buffer_handle := 0
    acquire_fence := -1
    color_space := BufferColorSpace.kUndefined
    sample_range := BufferSampleRange.kUndefined
    composition_type := 0
    display_frame := ⟨0, 0, 0, 0⟩
    alpha := 0
    source_crop := ⟨0, 0, 0, 0⟩
    transform := ⟨false, false, false⟩
    z_order := 0 }

/-- A concrete device: display handle 1 holding layer handle 2. -/
def sampleDevice : DrmHwcTwo := ⟨[(1, ⟨[(2, sampleLayer)]⟩)]⟩

end Hwc2

namespace DrmDev

/-- A concrete resources record with one CRTC, connector and encoder. -/
def sampleRes : KmsRes := ⟨1, 1, 1, 0, 0, 4096, 4096⟩

/-- A concrete environment where every mandatory kernel call succeeds but the
modifiers capability query fails. -/
def sampleEnvOk : DrmEnv :=
  { openOk := true
    universalPlanesRet := 0
    atomicRet := 0
    writebackRet := -22
    modifiersCapOk := false
    modifiersCapValue := 0
    isMaster := true
    res := some sampleRes
    planeResOk := true }

/-- A concrete environment where the object-properties fetch fails for every
object (e.g. an invalid object id). -/
def fetchFailEnv : PropFetchEnv := ⟨fun _ _ => none⟩

/-- A concrete environment with one object (id 10) holding two properties. -/
def crtcPropsEnv : PropFetchEnv :=
  ⟨fun o _ => if o = 10 then some ["ACTIVE", "MODE_ID"] else none⟩

end DrmDev

/- ### Theorems -/

open Hwc2 DrmDev DrmProp Planner

theorem lookupA_updateA_self {α : Type} (xs : List (Nat × α)) (k : Nat)
    (v w : α) (h : lookupA xs k = some w) :
    lookupA (updateA xs k v) k = some v := by
  induction xs with
  | nil => simp [lookupA] at h
  | cons p rest ih =>
    obtain ⟨a, b⟩ := p
    by_cases hk : a = k
    · simp [lookupA, updateA, hk]
    · simp only [lookupA, updateA, hk, if_false] at h ⊢
      exact ih h

theorem layerHook_display_missing (dev : DrmHwcTwo) (dh lh : Nat)
    (props : HwcLayer → LayerProperties)
    (h : lookupA dev.displays dh = none) :
    layerHook dev dh lh props = (errorBadDisplay, dev) := by
  simp [layerHook, h]

theorem layerHook_layer_missing (dev : DrmHwcTwo) (dh lh : Nat)
    (d : HwcDisplay) (props : HwcLayer → LayerProperties)
    (h1 : lookupA dev.displays dh = some d)
    (h2 : lookupA d.layers lh = none) :
    layerHook dev dh lh props = (errorBadLayer, dev) := by
  simp [layerHook, h1, h2]

theorem layerHook_found (dev : DrmHwcTwo) (dh lh : Nat) (d : HwcDisplay)
    (l : HwcLayer) (props : HwcLayer → LayerProperties)
    (h1 : lookupA dev.displays dh = some d)
    (h2 : lookupA d.layers lh = some l) :
    layerHook dev dh lh props =
      (0, { displays :=
              updateA dev.displays dh
                { layers := updateA d.layers lh
                    (SetLayerProperties l (props l)) } }) := by
  simp [layerHook, h1, h2]

/-- Claim C1: every layer-property setter entry point returns `BadDisplay`
when the display handle does not resolve, and `BadLayer` when the display
resolves but the layer handle does not resolve to a layer of that display; in
both failure cases the device state is returned unchanged. -/
theorem layer_setters_bad_handle
    (dev dev2 : DrmHwcTwo) (dh lh dh2 lh2 : Nat) (d : HwcDisplay)
    (mode : Int) (buf : Nat) (fence : Int) (ds : Nat) (ct : Int)
    (frame : IRect) (a : FloatBits) (crop : FRect) (t z : Nat)
    (h1 : lookupA dev.displays dh = none)
    (h2 : lookupA dev2.displays dh2 = some d)
    (h3 : lookupA d.layers lh2 = none) :
    (SetLayerBlendMode dev dh lh mode = (errorBadDisplay, dev) ∧
     SetLayerBuffer dev dh lh buf fence = (errorBadDisplay, dev) ∧
     SetLayerDataspace dev dh lh ds = (errorBadDisplay, dev) ∧
     SetLayerCompositionType dev dh lh ct = (errorBadDisplay, dev) ∧
     SetLayerDisplayFrame dev dh lh frame = (errorBadDisplay, dev) ∧
     SetLayerPlaneAlpha dev dh lh a = (errorBadDisplay, dev) ∧
     SetLayerSourceCrop dev dh lh crop = (errorBadDisplay, dev) ∧
     SetLayerTransform dev dh lh t = (errorBadDisplay, dev) ∧
     SetLayerZOrder dev dh lh z = (errorBadDisplay, dev)) ∧
    (SetLayerBlendMode dev2 dh2 lh2 mode = (errorBadLayer, dev2) ∧
     SetLayerBuffer dev2 dh2 lh2 buf fence = (errorBadLayer, dev2) ∧
     SetLayerDataspace dev2 dh2 lh2 ds = (errorBadLayer, dev2) ∧
     SetLayerCompositionType dev2 dh2 lh2 ct = (errorBadLayer, dev2) ∧
     SetLayerDisplayFrame dev2 dh2 lh2 frame = (errorBadLayer, dev2) ∧
     SetLayerPlaneAlpha dev2 dh2 lh2 a = (errorBadLayer, dev2) ∧
     SetLayerSourceCrop dev2 dh2 lh2 crop = (errorBadLayer, dev2) ∧
     SetLayerTransform dev2 dh2 lh2 t = (errorBadLayer, dev2) ∧
     SetLayerZOrder dev2 dh2 lh2 z = (errorBadLayer, dev2)) := by
  constructor
  · exact ⟨layerHook_display_missing dev dh lh _ h1,
      layerHook_display_missing dev dh lh _ h1,
      layerHook_display_missing dev dh lh _ h1,
      layerHook_display_missing dev dh lh _ h1,
      layerHook_display_missing dev dh lh _ h1,
      layerHook_display_missing dev dh lh _ h1,
      layerHook_display_missing dev dh lh _ h1,
      layerHook_display_missing dev dh lh _ h1,
      layerHook_display_missing dev dh lh _ h1⟩
  · exact ⟨layerHook_layer_missing dev2 dh2 lh2 d _ h2 h3,
      layerHook_layer_missing dev2 dh2 lh2 d _ h2 h3,
      layerHook_layer_missing dev2 dh2 lh2 d _ h2 h3,
      layerHook_layer_missing dev2 dh2 lh2 d _ h2 h3,
      layerHook_layer_missing dev2 dh2 lh2 d _ h2 h3,
      layerHook_layer_missing dev2 dh2 lh2 d _ h2 h3,
      layerHook_layer_missing dev2 dh2 lh2 d _ h2 h3,
      layerHook_layer_missing dev2 dh2 lh2 d _ h2 h3,
      layerHook_layer_missing dev2 dh2 lh2 d _ h2 h3⟩

/-- Witness for C1 at concrete states: an empty device rejects display handle
0 with `BadDisplay`; a device whose display 5 has no layers rejects layer
handle 0 with `BadLayer`. -/
theorem layer_setters_bad_handle_witness :
    (SetLayerBlendMode ⟨[]⟩ 0 0 0).fst = errorBadDisplay ∧
    (SetLayerBlendMode ⟨[(5, ⟨[]⟩)]⟩ 5 0 0).fst = errorBadLayer := by
  have h := layer_setters_bad_handle ⟨[]⟩ ⟨[(5, ⟨[]⟩)]⟩ 0 0 5 0 ⟨[]⟩
    0 0 0 0 0 ⟨0, 0, 0, 0⟩ 0 ⟨0, 0, 0, 0⟩ 0 0 rfl rfl rfl
  exact ⟨by rw [h.1.1], by rw [h.2.1]⟩

/-- Claim C4: with valid handles, `SetLayerTransform` stages a transform whose
hflip flag is set iff the `HAL_TRANSFORM_FLIP_H` bit is in the argument, vflip
iff `HAL_TRANSFORM_FLIP_V`, rotate90 iff `HAL_TRANSFORM_ROT_90`, and the call
returns 0. -/
theorem set_layer_transform_stages_flags
    (dev : DrmHwcTwo) (dh lh : Nat) (t : Nat) (d : HwcDisplay) (l : HwcLayer)
    (h1 : lookupA dev.displays dh = some d)
    (h2 : lookupA d.layers lh = some l) :
    (SetLayerTransform dev dh lh t).fst = 0 ∧
    ∃ d2 l2,
      lookupA (SetLayerTransform dev dh lh t).snd.displays dh = some d2 ∧
      lookupA d2.layers lh = some l2 ∧
      (l2.transform.hflip = true ↔ t &&& HAL_TRANSFORM_FLIP_H ≠ 0) ∧
      (l2.transform.vflip = true ↔ t &&& HAL_TRANSFORM_FLIP_V ≠ 0) ∧
      (l2.transform.rotate90 = true ↔ t &&& HAL_TRANSFORM_ROT_90 ≠ 0) := by
  have hs := layerHook_found dev dh lh d l
    (fun _ =>
      { transform := some
          { hflip := t &&& HAL_TRANSFORM_FLIP_H != 0
            vflip := t &&& HAL_TRANSFORM_FLIP_V != 0
            rotate90 := t &&& HAL_TRANSFORM_ROT_90 != 0 } }) h1 h2
  rw [SetLayerTransform, hs]
  refine ⟨rfl, _, SetLayerProperties l _, lookupA_updateA_self _ _ _ d h1,
    lookupA_updateA_self _ _ _ l h2, ?_, ?_, ?_⟩ <;>
    simp [SetLayerProperties]

/-- Witness for C4: on the sample device, transform argument 5
(`FLIP_H | ROT_90`) stages hflip and rotate90 but not vflip. -/
theorem set_layer_transform_stages_flags_witness :
    (SetLayerTransform sampleDevice 1 2 5).fst = 0 ∧
    ∃ d2 l2,
      lookupA (SetLayerTransform sampleDevice 1 2 5).snd.displays 1 = some d2 ∧
      lookupA d2.layers 2 = some l2 ∧
      (l2.transform.hflip = true ↔ 5 &&& HAL_TRANSFORM_FLIP_H ≠ 0) ∧
      (l2.transform.vflip = true ↔ 5 &&& HAL_TRANSFORM_FLIP_V ≠ 0) ∧
      (l2.transform.rotate90 = true ↔ 5 &&& HAL_TRANSFORM_ROT_90 ≠ 0) :=
  set_layer_transform_stages_flags sampleDevice 1 2 5 ⟨[(2, sampleLayer)]⟩
    sampleLayer rfl rfl

/-- Claim C5: with valid handles, `SetLayerBlendMode` stages `kNone` for
`None` (1), `kPreMult` for `Premultiplied` (2), `kCoverage` for `Coverage`
(3), `kUndefined` for every other value, and returns 0 in all cases. -/
theorem set_layer_blend_mode_stages
    (dev : DrmHwcTwo) (dh lh : Nat) (mode : Int) (d : HwcDisplay)
    (l : HwcLayer)
    (h1 : lookupA dev.displays dh = some d)
    (h2 : lookupA d.layers lh = some l) :
    (SetLayerBlendMode dev dh lh mode).fst = 0 ∧
    ∃ d2 l2,
      lookupA (SetLayerBlendMode dev dh lh mode).snd.displays dh = some d2 ∧
      lookupA d2.layers lh = some l2 ∧
      (mode = blendModeNone → l2.blend_mode = BufferBlendMode.kNone) ∧
      (mode = blendModePremultiplied →
        l2.blend_mode = BufferBlendMode.kPreMult) ∧
      (mode = blendModeCoverage → l2.blend_mode = BufferBlendMode.kCoverage) ∧
      (mode ≠ blendModeNone → mode ≠ blendModePremultiplied →
        mode ≠ blendModeCoverage →
        l2.blend_mode = BufferBlendMode.kUndefined) := by
  have hs := layerHook_found dev dh lh d l
    (fun _ =>
      { blend_mode := some
          (if mode = blendModeNone then BufferBlendMode.kNone
           else if mode = blendModePremultiplied then BufferBlendMode.kPreMult
           else if mode = blendModeCoverage then BufferBlendMode.kCoverage
           else BufferBlendMode.kUndefined) }) h1 h2
  rw [SetLayerBlendMode, hs]
  refine ⟨rfl, _, SetLayerProperties l _, lookupA_updateA_self _ _ _ d h1,
    lookupA_updateA_self _ _ _ l h2, ?_, ?_, ?_, ?_⟩
  · intro ha
    simp [SetLayerProperties, ha, blendModeNone, blendModePremultiplied,
      blendModeCoverage]
  · intro ha
    simp [SetLayerProperties, ha, blendModeNone, blendModePremultiplied,
      blendModeCoverage]
  · intro ha
    simp [SetLayerProperties, ha, blendModeNone, blendModePremultiplied,
      blendModeCoverage]
  · intro ha hb hc
    simp [SetLayerProperties, ha, hb, hc]

/-- Witness for C5: on the sample device, blend mode 2 (`Premultiplied`)
stages `kPreMult` and returns 0. -/
theorem set_layer_blend_mode_stages_witness :
    (SetLayerBlendMode sampleDevice 1 2 2).fst = 0 ∧
    ∃ d2 l2,
      lookupA (SetLayerBlendMode sampleDevice 1 2 2).snd.displays 1 = some d2 ∧
      lookupA d2.layers 2 = some l2 ∧
      ((2 : Int) = blendModeNone → l2.blend_mode = BufferBlendMode.kNone) ∧
      ((2 : Int) = blendModePremultiplied →
        l2.blend_mode = BufferBlendMode.kPreMult) ∧
      ((2 : Int) = blendModeCoverage →
        l2.blend_mode = BufferBlendMode.kCoverage) ∧
      ((2 : Int) ≠ blendModeNone → (2 : Int) ≠ blendModePremultiplied →
        (2 : Int) ≠ blendModeCoverage →
        l2.blend_mode = BufferBlendMode.kUndefined) :=
  set_layer_blend_mode_stages sampleDevice 1 2 2 ⟨[(2, sampleLayer)]⟩
    sampleLayer rfl rfl

/-- Claim C2: `DrmDevice::Init` fails with the nonzero return of a failed
universal-planes or atomic capability negotiation; a failed
writeback-connectors negotiation never changes the outcome; a failed
buffer-modifiers capability query records modifier support as absent and
initialization continues. -/
theorem drm_device_init_caps (e : DrmEnv) (ho : e.openOk = true) :
    (e.universalPlanesRet ≠ 0 →
      DrmDevice_Init e = Except.error e.universalPlanesRet) ∧
    (e.universalPlanesRet = 0 → e.atomicRet ≠ 0 →
      DrmDevice_Init e = Except.error e.atomicRet) ∧
    (∀ r : Int, DrmDevice_Init { e with writebackRet := r } =
      DrmDevice_Init e) ∧
    (e.universalPlanesRet = 0 → e.atomicRet = 0 → e.modifiersCapOk = false →
      e.isMaster = true → e.planeResOk = true →
      ∀ r, e.res = some r →
        DrmDevice_Init e = Except.ok
          { HasAddFb2ModifiersSupport := false
            min_resolution := (r.min_width, r.min_height)
            max_resolution := (r.max_width, r.max_height) }) := by
  refine ⟨?_, ?_, ?_, ?_⟩
  · intro hu
    simp [DrmDevice_Init, ho, hu]
  · intro hu ha
    simp [DrmDevice_Init, ho, hu, ha]
  · intro r
    simp [DrmDevice_Init]
  · intro hu ha hm hmaster hplanes r hres
    simp [DrmDevice_Init, ho, hu, ha, hm, hmaster, hplanes, hres]

/-- Witness for C2 at a concrete environment: all mandatory calls succeed,
the modifiers query fails, and `Init` succeeds recording no modifier
support. -/
theorem drm_device_init_caps_witness :
    DrmDevice_Init sampleEnvOk = Except.ok
      { HasAddFb2ModifiersSupport := false
        min_resolution := (0, 0)
        max_resolution := (4096, 4096) } :=
  (drm_device_init_caps sampleEnvOk rfl).2.2.2 rfl rfl rfl rfl rfl
    sampleRes rfl

/-- Counterexample for C3: in an environment where the object-properties
fetch fails (invalid object id), no property named "CRTC_ID" exists on object
(1, 1), yet `GetProperty` returns `-ENODEV` (-19), which is neither the
claimed `-ENOENT` (-2) nor 0 — a third failure result is possible. -/
theorem get_property_enodev_counterexample :
    ¬ propExistsOn fetchFailEnv 1 1 "CRTC_ID" ∧
    GetProperty fetchFailEnv 1 1 "CRTC_ID" = -ENODEV ∧
    GetProperty fetchFailEnv 1 1 "CRTC_ID" ≠ -ENOENT ∧
    GetProperty fetchFailEnv 1 1 "CRTC_ID" ≠ 0 := by
  refine ⟨?_, rfl, by decide, by decide⟩
  rintro ⟨names, hsome, _⟩
  simp [fetchFailEnv, propExistsOn] at hsome

/-- Claim C3 (amended): `DrmDevice::GetProperty` returns `-ENODEV` when the
object-properties fetch fails; when the fetch succeeds it returns 0 when a
property with the requested name exists on the object and `-ENOENT` when it
does not; these three are the only possible results. -/
theorem get_property_results (env : PropFetchEnv) (o t : Nat) (n : String) :
    (env.objectProps o t = none → GetProperty env o t n = -ENODEV) ∧
    (∀ names, env.objectProps o t = some names →
      (names.contains n = true → GetProperty env o t n = 0) ∧
      (names.contains n = false → GetProperty env o t n = -ENOENT)) ∧
    (GetProperty env o t n = 0 ∨ GetProperty env o t n = -ENOENT ∨
      GetProperty env o t n = -ENODEV) := by
  refine ⟨?_, ?_, ?_⟩
  · intro h
    simp [GetProperty, h]
  · intro names h
    constructor
    · intro hc
      simp at hc
      simp [GetProperty, h, hc]
    · intro hc
      simp at hc
      simp [GetProperty, h, hc]
  · unfold GetProperty
    rcases env.objectProps o t with _ | names
    · simp
    · by_cases hm : n ∈ names <;> simp [hm]

/-- Witness for C3 (amended) at a concrete environment: object 10 holds a
property named "MODE_ID", so `GetProperty` returns 0. -/
theorem get_property_results_witness :
    GetProperty crtcPropsEnv 10 0 "MODE_ID" = 0 :=
  ((get_property_results crtcPropsEnv 10 0 "MODE_ID").2.1
    ["ACTIVE", "MODE_ID"] rfl).1 rfl

/-- Claim C10: `DrmDevice::CreateInstance` returns an empty pointer unless
the path names a KMS-capable node and full initialization succeeds, and
`IsKMSDev` holds iff the node opens, its mode resources can be fetched, and
it reports more than zero CRTCs, connectors and encoders. -/
theorem create_instance_requires_kms (e : DrmEnv) :
    (∀ s, CreateInstance e = some s →
      IsKMSDev e = true ∧ DrmDevice_Init e = Except.ok s) ∧
    (∀ s, DrmDevice_Init e = Except.ok s → IsKMSDev e = true →
      CreateInstance e = some s) ∧
    (IsKMSDev e = true ↔
      e.openOk = true ∧ ∃ r, e.res = some r ∧
        0 < r.count_crtcs ∧ 0 < r.count_connectors ∧
        0 < r.count_encoders) := by
  refine ⟨?_, ?_, ?_⟩
  · intro s hs
    unfold CreateInstance at hs
    by_cases hk : IsKMSDev e
    · refine ⟨hk, ?_⟩
      rcases hi : DrmDevice_Init e with r | r <;> simp [hk, hi] at hs
      rw [hs]
    · simp [hk] at hs
  · intro s hi hk
    simp [CreateInstance, hk, hi]
  · unfold IsKMSDev
    by_cases hopen : e.openOk
    · rcases hres : e.res with _ | r
      · simp [hopen, hres]
      · simp [hopen, hres]
        tauto
    · simp [hopen]

/-- Witness for C10 at a concrete environment: a node with one CRTC,
connector and encoder is KMS-capable, and `CreateInstance` succeeds there. -/
theorem create_instance_requires_kms_witness :
    CreateInstance sampleEnvOk = some
      { HasAddFb2ModifiersSupport := false
        min_resolution := (0, 0)
        max_resolution := (4096, 4096) } :=
  (create_instance_requires_kms sampleEnvOk).2.1 _ rfl rfl

/-- Claim C6: after a successful dumb-buffer creation, every exit path of
`CreateBufferForModeset` destroys the created handle exactly once, and a
failing map-dumb ioctl, mmap, or prime-FD export yields no buffer; a property
blob handed out by `RegisterUserPropertyBlob` is destroyed exactly once, when
its owning handle is released. -/
theorem modeset_resources_released (e : ModesetEnv) (w h : Nat) (be : BlobEnv)
    (hc : e.createDumbRet = 0) (hh : 0 < e.createdHandle) :
    (CreateBufferForModeset e w h).snd.count
        (DrmIoctlEvent.destroyDumb e.createdHandle) = 1 ∧
    ((e.mapDumbRet ≠ 0 ∨ e.mmapOk = false ∨ e.primeRet ≠ 0) →
      (CreateBufferForModeset e w h).fst = none) ∧
    (∀ bid, (RegisterUserPropertyBlob be).fst = some bid →
      (ReleaseUserPropertyBlob bid).count
        (DrmIoctlEvent.destroyBlob bid) = 1) := by
  refine ⟨?_, ?_, ?_⟩
  · unfold CreateBufferForModeset
    simp only [hc, hh, ne_eq, not_true_eq_false, if_false, if_true,
      gt_iff_lt, ite_true]
    split_ifs <;> simp [List.count_cons]
  · intro hfail
    unfold CreateBufferForModeset
    simp only [hc, ne_eq, not_true_eq_false, if_false]
    rcases hfail with hf | hf | hf
    all_goals split_ifs <;> simp_all
  · intro bid hbid
    unfold RegisterUserPropertyBlob at hbid
    split_ifs at hbid
    simp_all [ReleaseUserPropertyBlob]

/-- Witness for C6 at a concrete run: create succeeds with handle 7 and the
whole pipeline succeeds; the trace still destroys handle 7 exactly once, and
releasing blob handle 9 destroys blob 9 exactly once. -/
theorem modeset_resources_released_witness :
    (CreateBufferForModeset ⟨0, 7, 512, 0, true, 0, 42⟩ 64 64).snd.count
        (DrmIoctlEvent.destroyDumb 7) = 1 ∧
    (ReleaseUserPropertyBlob 9).count (DrmIoctlEvent.destroyBlob 9) = 1 := by
  have hthm := modeset_resources_released ⟨0, 7, 512, 0, true, 0, 42⟩ 64 64
    ⟨0, 9⟩ rfl (by decide)
  exact ⟨hthm.1, hthm.2.2 9 rfl⟩

/-- Claim C8: `DrmProperty::value` never indexes out of bounds: blob
properties yield `(0, raw)`; any non-blob property with an empty value list
yields `(-ENOENT, 0)`; an enum property with a raw value at or past the
number of enum entries yields `(-ENOENT, 0)` and otherwise the selected
entry's value; bitmask and unrecognized types yield `(-EINVAL, 0)`. -/
theorem drm_property_value_cases (p : DrmProperty) :
    (p.type = DrmPropertyType.BLOB → DrmProperty_value p = (0, p.value)) ∧
    (p.type ≠ DrmPropertyType.BLOB → p.values = [] →
      DrmProperty_value p = (-ENOENT, 0)) ∧
    (p.type = DrmPropertyType.ENUM → p.values ≠ [] →
      (p.enums.length ≤ p.value → DrmProperty_value p = (-ENOENT, 0)) ∧
      (p.value < p.enums.length →
        DrmProperty_value p = (0, p.enums.getD p.value 0))) ∧
    ((p.type = DrmPropertyType.BITMASK ∨ p.type = DrmPropertyType.INVALID) →
      p.values ≠ [] → DrmProperty_value p = (-EINVAL, 0)) := by
  refine ⟨?_, ?_, ?_, ?_⟩
  · intro ht
    simp [DrmProperty_value, ht]
  · intro ht hv
    simp [DrmProperty_value, ht, hv]
  · intro ht hv
    constructor
    · intro hlen
      simp [DrmProperty_value, ht, hv, hlen]
    · intro hlen
      simp [DrmProperty_value, ht, hv, Nat.not_le_of_lt hlen,
        Nat.not_le.mpr hlen]
  · rintro (ht | ht) hv <;> simp [DrmProperty_value, ht, hv]

/-- Witness for C8 at a concrete enum property: raw value 1 selects the
second enum entry's value. -/
theorem drm_property_value_cases_witness :
    DrmProperty_value ⟨1, 2, DrmPropertyType.ENUM, [0, 1], [3, 4], 1⟩ =
      (0, ([3, 4] : List Nat).getD 1 0) :=
  ((drm_property_value_cases
      ⟨1, 2, DrmPropertyType.ENUM, [0, 1], [3, 4], 1⟩).2.2.1
    rfl (by decide)).2 (by decide)

/-- Claim C9: `DrmProperty::AtomicSet` on a non-initialized property (id 0)
returns false and leaves the request unchanged; on an initialized property it
returns true iff the (object-id, property-id, value) triple was appended, and
returns false with the request unchanged when appending fails. -/
theorem atomic_set_cases (p : DrmProperty) (e : AtomicAddEnv)
    (pset : List (Nat × Nat × Nat)) (v : Nat) :
    (p.id = 0 → DrmProperty_AtomicSet p e pset v = (false, pset)) ∧
    (p.id ≠ 0 →
      ((DrmProperty_AtomicSet p e pset v).fst = true ↔
        (DrmProperty_AtomicSet p e pset v).snd =
          pset ++ [(p.obj_id, p.id, v)]) ∧
      (e.addOk = false → DrmProperty_AtomicSet p e pset v = (false, pset))) := by
  constructor
  · intro h0
    simp [DrmProperty_AtomicSet, h0]
  · intro h0
    constructor
    · rcases ha : e.addOk <;> simp [DrmProperty_AtomicSet, h0, ha]
    · intro ha
      simp [DrmProperty_AtomicSet, h0, ha]

/-- Witness for C9 at a concrete property and request: id 2 with a successful
libdrm append produces the appended request. -/
theorem atomic_set_cases_witness :
    (DrmProperty_AtomicSet ⟨1, 2, DrmPropertyType.INT, [], [], 0⟩ ⟨true⟩
        [] 5).snd = [(1, 2, 5)] := by
  have hthm := (atomic_set_cases ⟨1, 2, DrmPropertyType.INT, [], [], 0⟩
    ⟨true⟩ [] 5).2 (by decide)
  simpa using hthm.1.mp rfl

theorem resetFlags_markUsed (ps : List HardwarePlane) (pid : Nat) :
    resetFlags (markUsed ps pid) = resetFlags ps := by
  unfold resetFlags markUsed
  rw [List.map_map]
  apply List.map_congr_left
  intro p _
  by_cases h : p.plane_id = pid <;> simp [h]

theorem resetFlags_resetFlags (ps : List HardwarePlane) :
    resetFlags (resetFlags ps) = resetFlags ps := by
  unfold resetFlags
  rw [List.map_map]
  apply List.map_congr_left
  intro p _
  simp

theorem resetFlags_assignLayers_snd (ls : List PLayer)
    (ps : List HardwarePlane) :
    resetFlags (assignLayers ps ls).snd = resetFlags ps := by
  induction ls generalizing ps with
  | nil => rfl
  | cons l rest ih =>
    unfold assignLayers
    rcases hp : pick ps l with _ | pid
    · simpa using ih ps
    · simp only []
      rw [ih (markUsed ps pid), resetFlags_markUsed]

/-- Claim C7: calling `Plan` a second time with the unchanged layer set and
the registry returned by the first call (unchanged but for the per-pass
assignment flags, which `Plan` resets) yields an identical plane-to-layer
assignment. -/
theorem plan_idempotent (ls : List PLayer) (reg : List HardwarePlane) :
    (Plan ls (Plan ls reg).snd).fst = (Plan ls reg).fst := by
  unfold Plan
  rw [resetFlags_assignLayers_snd (sortLayers ls) (resetFlags reg),
    resetFlags_resetFlags]
